import Mathlib

/-!
Verification of the request-processing core of the mort image server
(`pkg/processor/processor.go` and the object model), via a shallow
embedding in Lean 4.

Conventions of the embedding:
* Go `*response.Response` values become the `Response` structure; the
  mutating methods (`Set`, `Close`, `SetTransforms`, …) become functions
  returning an updated value.
* External collaborators that the processor only calls through narrow
  interfaces (storage, engine, response cache, throttler, transforms
  merge) are gathered in an `Env` record of pure functions.
* The concurrent select loops of `handleGET` and `collapseGET` are
  embedded as step functions over an explicit trace of arrival events:
  each element of the trace is the event the Go `select` statement
  consumes in that iteration.  A universally quantified trace covers
  every interleaving of channel deliveries.
* Durations (`time.Duration`) are in nanoseconds, as `Int`.
-/

/-- One nanosecond-denominated second, i.e. Go's `time.Second`. -/
def second : Int := 1000000000

/-- Go's maximal `int` value on a 64-bit platform (`strconv.Atoi` clamps here). -/
def maxInt64 : Int := 9223372036854775807

/-- Go's minimal `int` value on a 64-bit platform. -/
def minInt64 : Int := -9223372036854775808

/-! ## Response (`pkg/response`)

The response package is not part of the extracted sources; its fields and
methods are modelled from the spec's data model: status code, headers,
content length (−1 = unknown), a body, lifecycle (`Close`), cacheability,
image-ness, an attached error, and the transforms record set by
`SetTransforms`. -/

structure Response where
  statusCode : Int
  headers : List (String × String) := []
  contentLength : Int := -1
  body : String := ""
  hasError : Bool := false
  errMsg : String := ""
  isCacheable : Bool := false
  isImage : Bool := false
  closed : Bool := false
  transformsRec : List Nat := []
  deriving Repr, DecidableEq

/-- `Headers.Get`: first value bound to the header name, `""` when absent. -/
def Response.get (r : Response) (h : String) : String :=
  match r.headers.find? (fun p => p.1 == h) with
  | some p => p.2
  | none => ""

/-- `res.Set(h, v)`: bind header `h` to `v`, overriding any previous value. -/
def Response.set (r : Response) (h v : String) : Response :=
  { r with headers := (h, v) :: r.headers.filter (fun p => p.1 != h) }

/-- `res.Close()`: release the body stream; modelled as marking the value closed. -/
def Response.close (r : Response) : Response :=
  { r with closed := true }

/-- Modelled from the spec: `Response.Copy()` "returns a response with an
independent stream (typically by buffering the body)".  Stream identity is
not observable in a pure value model, so the copy is the same value; the
spec does not model a copy failure, so it is total. -/
def Response.copy (r : Response) : Response := r

/-- `res.SetContentType(ct)` sets the Content-Type header. -/
def Response.setContentType (r : Response) (ct : String) : Response :=
  r.set "Content-Type" ct

/-- `res.SetTransforms(ts)` records the transform pipeline on the response. -/
def Response.setTransforms (r : Response) (ts : List Nat) : Response :=
  { r with transformsRec := ts }

/-- `response.NewError(sc, err)`: a plain error response with the given status. -/
def NewError (sc : Int) (err : String) : Response :=
  { statusCode := sc, hasError := true, errMsg := err }

/-- `response.NewBuf(sc, buf)`: an in-memory response over the given bytes. -/
def NewBuf (sc : Int) (buf : String) : Response :=
  { statusCode := sc, body := buf, contentLength := (buf.length : Int) }

/-- `response.NewString(sc, s)`: an in-memory response over the given string. -/
def NewString (sc : Int) (s : String) : Response :=
  { statusCode := sc, body := s, contentLength := (s.length : Int) }

/-! ## FileObject (`pkg/object`)

Fields as used by the processor: bucket, key, the transform list (held
abstract as an opaque tag `transformsId` plus the `NotEmpty` flag), the
optional parent back-reference, `CheckParent`, `Debug`, and the only
request-context datum the processor reads besides cancellation: whether
`ctx.Value(middleware.S3AuthCtxKey)` is non-nil. -/

inductive FileObject : Type where
  | mk (bucket key : String) (transformsNotEmpty : Bool) (transformsId : Nat)
       (checkParent : Bool) (debug : Bool) (ctxS3Auth : Bool)
       (parent : Option FileObject) : FileObject
  deriving Repr

def FileObject.bucket : FileObject → String
  | .mk b _ _ _ _ _ _ _ => b

def FileObject.key : FileObject → String
  | .mk _ k _ _ _ _ _ _ => k

def FileObject.transformsNotEmpty : FileObject → Bool
  | .mk _ _ t _ _ _ _ _ => t

def FileObject.transformsId : FileObject → Nat
  | .mk _ _ _ i _ _ _ _ => i

def FileObject.checkParent : FileObject → Bool
  | .mk _ _ _ _ c _ _ _ => c

def FileObject.debug : FileObject → Bool
  | .mk _ _ _ _ _ d _ _ => d

def FileObject.ctxS3Auth : FileObject → Bool
  | .mk _ _ _ _ _ _ a _ => a

def FileObject.parent : FileObject → Option FileObject
  | .mk _ _ _ _ _ _ _ p => p

/-- `obj.HasParent()`. -/
def FileObject.hasParent (o : FileObject) : Bool :=
  o.parent.isSome

/-- `obj.HasTransform()`: `Transforms.NotEmpty`. -/
def FileObject.hasTransform (o : FileObject) : Bool :=
  o.transformsNotEmpty

/-- `obj.Copy()`: a value copy of the descriptor. -/
def FileObject.copy (o : FileObject) : FileObject := o

/-! ## Configuration (`pkg/config`)

Only the fields the processor reads. -/

/-- One per-status header policy from `config.GetInstance().Headers`. -/
structure HeaderPred where
  statusCodes : List Int
  values : List (String × String)
  override : Bool
  deriving Repr, DecidableEq

/-- The process-wide configuration read by `updateHeaders`. -/
structure MortConfig where
  headers : List HeaderPred := []
  buckets : List (String × List (String × String)) := []
  deriving Repr, DecidableEq

/-- `config.Server`: the fields `NewRequestProcessor` and the processor read. -/
structure ServerConfig where
  requestTimeout : Int := 0
  lockTimeout : Int := 0
  placeholderStr : String := ""
  placeholderBuf : String := ""
  placeholderContentType : String := ""
  maxCacheItemSize : Int := 0
  deriving Repr, DecidableEq

/-! ## The request processor record (`NewRequestProcessor`) -/

structure RequestProcessor where
  processTimeout : Int
  lockTimeout : Int
  serverConfig : ServerConfig
  deriving Repr, DecidableEq

/-- `NewRequestProcessor(serverConfig, l, throttler)`:
`processTimeout = RequestTimeout seconds`, `lockTimeout = LockTimeout seconds`
(lines 36–46 of processor.go; the lock backend and throttler are behaviour,
not data, and live in `Env`). -/
def NewRequestProcessor (serverConfig : ServerConfig) : RequestProcessor :=
  { processTimeout := serverConfig.requestTimeout * second
    lockTimeout := serverConfig.lockTimeout * second
    serverConfig := serverConfig }

/-- The duration `collapseGET` arms its waiter timer with:
`time.NewTimer(r.lockTimeout)` (line 212). -/
def collapseLockTimerDuration (rp : RequestProcessor) : Int :=
  rp.lockTimeout

/-! ## External collaborators -/

/-- Outcome tag of `strconv.Atoi` (= `strconv.ParseInt(s, 10, 0)`). -/
inductive AtoiErr where
  | ok
  | syntaxErr
  | rangeErr
  deriving Repr, DecidableEq

/-- The pure environment of external calls the processor makes.  Each field
is one interface method of a collaborator declared out of scope by the spec
(storage, response cache, engine, throttler, transforms merge, error-object
derivation). -/
structure Env where
  storageGet : FileObject → Response
  storageHead : FileObject → Response
  /-- `responseCache.Get`: `some res` models `err == nil`. -/
  cacheGet : FileObject → Option Response
  /-- `engine.NewImageEngine(parent).Process(obj, transforms)`. -/
  engineProcess : Response → FileObject → List Nat → Except String Response
  throttlerTake : Bool
  transformsMerge : List Nat → List Nat
  fileErrorObject : String → FileObject → FileObject

/-- Modelled from the spec: `object.NewFileErrorObject(placeholder, obj)`
derives the "error object" keyed off the original's transforms applied to
the placeholder source (§4.6).  The spec does not model a failure of this
derivation, so it is total here. -/
def NewFileErrorObject (env : Env) (placeholderStr : String) (obj : FileObject) : FileObject :=
  env.fileErrorObject placeholderStr obj

/-! ## Error sentinels (processor.go lines 28–32) -/

def errTimeout : String := "timeout"

def errContextCancel : String := "context timeout"

def errThrottled : String := "throttled"

/-! ## Header decoration (`updateHeaders`, processor.go lines 446–481) -/

/-- The bucket-defaults loop of lines 453–459: set each configured header
only where the response does not already define it. -/
def overlayBucketHeaders (hs : List (String × String)) (r : Response) : Response :=
  hs.foldl (fun r0 hv => if r0.get hv.1 == "" then r0.set hv.1 hv.2 else r0) r

/-- The per-policy loop of lines 464–470: override-or-default based on the
policy's flag. -/
def applyHeaderPred (hp : HeaderPred) (r : Response) : Response :=
  hp.values.foldl (fun r0 hv =>
    if hp.override then r0.set hv.1 hv.2
    else if r0.get hv.1 == "" then r0.set hv.1 hv.2
    else r0) r

/-- `updateHeaders(obj, res)`: overlay bucket header defaults, then apply the
first per-status header policy whose status list contains the response's
status — that branch returns early (line 471) — and only when no policy
matched, force `Cache-Control: no-cache` if the request context carries
`S3AuthCtxKey`. -/
def updateHeaders (cfg : MortConfig) (obj : FileObject) (res : Response) : Response :=
  let res1 :=
    match cfg.buckets.find? (fun b => b.1 == obj.bucket) with
    | some b => overlayBucketHeaders b.2 res
    | none => res
  match cfg.headers.find? (fun hp => hp.statusCodes.contains res1.statusCode) with
  | some hp => applyHeaderPred hp res1
  | none =>
      if obj.ctxS3Auth then res1.set "Cache-Control" "no-cache" else res1

/-! ## Error response path (`replyWithError`, lines 107–145) -/

/-- `replyWithError(obj, sc, err)`: a plain error unless the object has
transforms, debug is off and a placeholder is configured; then serve the
cached derived error object (with the original status) or the untransformed
placeholder bytes (with the original status).  The goroutine of lines
122–140 that renders the transformed placeholder under the collapse lock and
populates the cache is fire-and-forget and does not contribute to the
returned response. -/
def replyWithError (cfg : ServerConfig) (env : Env) (obj : FileObject) (sc : Int)
    (err : String) : Response :=
  if !obj.hasTransform || obj.debug || cfg.placeholderStr == "" then
    NewError sc err
  else
    let errorObject := NewFileErrorObject env cfg.placeholderStr obj
    match env.cacheGet errorObject with
    | some cacheRes => { cacheRes with statusCode := sc }
    | none =>
        (NewBuf sc cfg.placeholderBuf).setContentType cfg.placeholderContentType

/-! ## Transform execution (`processImage`, lines 402–432) -/

/-- `processImage(obj, parent, transformsTab)`: throttle, merge the collected
transforms, run the engine; `400` on engine failure.  `storeProcessedImage`
(lines 434–444) copies the result and schedules an asynchronous
`storage.Set` of the copy; the returned response is unchanged by it. -/
def processImage (cfg : ServerConfig) (env : Env) (obj : FileObject)
    (parent : Response) (transformsTab : List Nat) : Response :=
  if env.throttlerTake == false then
    replyWithError cfg env obj 503 errThrottled
  else
    let mergedTrans := env.transformsMerge transformsTab
    match env.engineProcess parent obj mergedTrans with
    | .error e => (NewError 400 e).setTransforms mergedTrans
    | .ok res => res.setTransforms mergedTrans

/-! ## Not-found recovery (`handleNotFound`, lines 338–368) -/

/-- `handleNotFound(obj, parentObj, transformsTab, parentRes, res)`: the
original 404 `res` is closed first; without a parent it is returned (closed).
With `CheckParent` unset the parent HEAD is fetched here, otherwise the
already-received HEAD is used (Go dereferences it unconditionally; call
sites guarantee it is non-nil, the `getD` default only totalizes that case).
Errors propagate with the parent's status; a parent 404 is returned as-is;
a non-200 or non-image parent yields the closed original 404; otherwise the
parent is fetched by GET and transformed when transforms exist. -/
def handleNotFound (cfg : ServerConfig) (env : Env) (obj : FileObject)
    (parentObj : Option FileObject) (transformsTab : List Nat)
    (parentRes : Option Response) (res : Response) : Response :=
  let res := res.close
  match parentObj with
  | none => res
  | some p =>
    let parentResV :=
      if obj.checkParent == false then env.storageHead p
      else parentRes.getD (NewError 0 "nil parent response")
    if parentResV.hasError then
      replyWithError cfg env obj parentResV.statusCode parentResV.errMsg
    else if parentResV.statusCode == 404 then
      parentResV
    else
      let parentResC := parentResV.close
      if parentResC.statusCode != 200 || !parentResC.isImage then
        res
      else
        let parentGet := env.storageGet p
        if obj.hasTransform then
          processImage cfg env obj parentGet transformsTab
        else
          parentGet

/-! ## Direct GET (`handleGET`, lines 238–336)

The root-parent walk of lines 247–257 collects the transforms of every
non-root node of the parent chain (child-first) and names the root; the
select loop of lines 295–334 is embedded as a step function over the trace
of events the select consumes. -/

/-- The root-parent search of lines 247–257: the ancestor without a parent,
or `none` when the object itself has no parent. -/
def rootParent : FileObject → Option FileObject
  | .mk _ _ _ _ _ _ _ none => none
  | .mk _ _ _ _ _ _ _ (some p) =>
      match rootParent p with
      | none => some p
      | some r => some r

/-- The transforms collected by the walk of lines 247–257: each node of the
chain that still has a parent contributes its transforms when non-empty,
child-first; the root's own transforms are never collected. -/
def collectTransforms : FileObject → List Nat
  | .mk _ _ tNE tId _ _ _ (some p) =>
      (if tNE then [tId] else []) ++ collectTransforms p
  | .mk _ _ _ _ _ _ _ none => []

/-- One event the select of lines 295–334 consumes: context expiry, a
derivative storage result on `resChan`, or a parent HEAD on `parentChan`. -/
inductive GEvent where
  | ctxDone
  | objArrive (res : Response)
  | parentArrive (res : Response)
  deriving Repr, DecidableEq

/-- The loop-carried state: the parent HEAD received so far. -/
structure GState where
  parentRes : Option Response
  deriving Repr, DecidableEq

/-- One iteration of `handleGET`'s select loop.  `.inl` is a `return`;
`.inr` continues with the updated state.  An object result consumed while
`CheckParent` holds, a root parent exists and no parent HEAD has been
recorded is re-sent on `resChan` by a helper goroutine (lines 300–304) and
so reappears as a later `objArrive` of the trace; after `handleNotFound`
the code re-probes `ctx.Done` only to `Close` the same chosen response
(lines 308–314), which alters neither its status nor its selection. -/
def handleGETStep (cfg : ServerConfig) (env : Env) (obj : FileObject)
    (parentObj : Option FileObject) (transformsTab : List Nat)
    (st : GState) : GEvent → Sum Response GState
  | .ctxDone => .inl (replyWithError cfg env obj 499 errContextCancel)
  | .objArrive res =>
      if obj.checkParent && parentObj.isSome &&
         (st.parentRes.isNone || (st.parentRes.getD (NewError 0 "")).statusCode == 0) then
        .inr st
      else if res.statusCode == 404 then
        .inl (handleNotFound cfg env obj parentObj transformsTab st.parentRes res)
      else
        .inl res
  | .parentArrive p =>
      if p.statusCode == 404 then .inl p
      else .inr { st with parentRes := some p }

/-- Run the select loop over a trace of consumed events; `none` when the
trace is exhausted without a return. -/
def handleGETLoop (cfg : ServerConfig) (env : Env) (obj : FileObject)
    (parentObj : Option FileObject) (transformsTab : List Nat) :
    GState → List GEvent → Option Response
  | _, [] => none
  | st, e :: rest =>
      match handleGETStep cfg env obj parentObj transformsTab st e with
      | .inl r => some r
      | .inr st2 => handleGETLoop cfg env obj parentObj transformsTab st2 rest

/-- `handleGET(req, obj)`: root-parent walk, then the select loop from the
initial state. -/
def handleGET (cfg : ServerConfig) (env : Env) (obj : FileObject)
    (trace : List GEvent) : Option Response :=
  handleGETLoop cfg env obj (rootParent obj) (collectTransforms obj) ⟨none⟩ trace

/-! ## Collapsed GET, waiter side (`collapseGET`, lines 200–234)

The winner branch (lines 202–208) runs `handleGET` and broadcasts via
`NotifyAndRelease`.  On the waiter side every branch of the select returns,
so the enclosing `for` runs exactly one effective iteration: the waiter
maps the single event its select consumes to an outcome. -/

/-- One event the waiter's select consumes. -/
inductive WEvent where
  | ctxDone
  | chanRecv (res : Response)
  | chanClosed
  | timerFire
  deriving Repr, DecidableEq

/-- A waiter outcome: whether `lockResult.Cancel <- true` was signalled, and
the response returned (`none` only when the closed-channel fallback's
`handleGET` trace is exhausted). -/
structure WaiterStep where
  cancelSignalled : Bool
  result : Option Response
  deriving Repr

/-- The waiter side of `collapseGET`: `ctx.Done` cancels and replies `504`;
a delivered response is returned as-is; a closed channel falls back to a
local `handleGET` run (over `fallbackTrace`); timer expiry cancels, retries
the response cache once and otherwise replies `504`. -/
def collapseGETWaiter (cfg : ServerConfig) (env : Env) (obj : FileObject)
    (fallbackTrace : List GEvent) : WEvent → WaiterStep
  | .ctxDone => ⟨true, some (replyWithError cfg env obj 504 errContextCancel)⟩
  | .chanRecv res => ⟨false, some res⟩
  | .chanClosed => ⟨false, handleGET cfg env obj fallbackTrace⟩
  | .timerFire =>
      ⟨true, some (match env.cacheGet obj with
                   | some cacheRes => cacheRes
                   | none => replyWithError cfg env obj 504 errTimeout)⟩

/-! ## Bucket listing (`handleS3Get`, lines 370–400) -/

/-- `strconv.Atoi(s)` = `ParseInt(s, 10, 0)` on a 64-bit platform: an
optional sign followed by at least one decimal digit.  On a syntax error
the returned value is 0; on range overflow it clamps to the int bounds with
an ErrRange.  `handleS3Get` discards the error and keeps the value. -/
def digitsToNat (ds : List Char) : Nat :=
  ds.foldl (fun a c => a * 10 + (c.toNat - 48)) 0

/-- Digit-sequence part of `Atoi`: value 0 on a malformed digit string,
clamping with ErrRange on 64-bit overflow. -/
def atoiCore (sign : Int) (ds : List Char) : Int × AtoiErr :=
  if ds.isEmpty || !ds.all Char.isDigit then (0, .syntaxErr)
  else if sign * (digitsToNat ds : Int) > maxInt64 then (maxInt64, .rangeErr)
  else if sign * (digitsToNat ds : Int) < minInt64 then (minInt64, .rangeErr)
  else (sign * (digitsToNat ds : Int), .ok)

def atoi (s : String) : Int × AtoiErr :=
  match s.toList with
  | '+' :: rest => atoiCore 1 rest
  | '-' :: rest => atoiCore (-1) rest
  | rest => atoiCore 1 rest

/-- `req.URL.Query()` restricted to what `handleS3Get` reads: each pair is
one `k=v` (or bare `k`, with value `""`) member of the query string in
order; `query[k]` is present iff some pair has key `k`, and `query[k][0]`
is the first such pair's value. -/
def queryHas (query : List (String × String)) (k : String) : Bool :=
  (query.find? (fun p => p.1 == k)).isSome

/-- First value bound to `k`, when present. -/
def queryFirst (query : List (String × String)) (k : String) : Option String :=
  (query.find? (fun p => p.1 == k)).map (fun p => p.2)

/-- The observable outcome of `handleS3Get`: the fixed location response
built locally, or a `storage.List(obj, maxKeys, delimeter, prefix, marker)`
call with the computed arguments. -/
inductive S3Action where
  | fixedLocation (res : Response)
  | list (maxKeys : Int) (delim pfx mrk : String)
  deriving Repr, DecidableEq

/-- The fixed location XML of processor.go line 26. -/
def s3LocationStr : String :=
  "<?xml version=\"1.0\" encoding=\"UTF-8\"?><LocationConstraint xmlns=\"http://s3.amazonaws.com/doc/2006-03-01/\">EU</LocationConstraint>"

/-- `handleS3Get(req, obj)`: a `location` query short-circuits to the fixed
XML; otherwise `max-keys` (default 1000, `Atoi` error dropped), `delimeter`,
`prefix` and `marker` (default `""`) feed `storage.List`. -/
def handleS3Get (query : List (String × String)) : S3Action :=
  if queryHas query "location" then
    .fixedLocation (NewString 200 s3LocationStr)
  else
    let maxKeys : Int :=
      match queryFirst query "max-keys" with
      | some v => (atoi v).1
      | none => 1000
    let delim := (queryFirst query "delimeter").getD ""
    let pfx := (queryFirst query "prefix").getD ""
    let mrk := (queryFirst query "marker").getD ""
    .list maxKeys delim pfx mrk

/-- The `maxKeys` argument of a scheduled listing, when one is scheduled. -/
def S3Action.listMaxKeys : S3Action → Option Int
  | .list mk0 _ _ _ => some mk0
  | .fixedLocation _ => none

/-! ## GET pipeline tail: background cache population (lines 167–181) -/

/-- Result of the GET pipeline tail: the response handed to the client and
the asynchronous `responseCache.Set(objCpy, resCpy)` task, when scheduled. -/
structure ProcessGETResult where
  client : Response
  cacheTask : Option (FileObject × Response)

/-- Lines 167–181: given the chosen, header-decorated response, schedule an
asynchronous cache population of a copy exactly when the response is
cacheable, its content length is not the unknown sentinel −1 and it is
below `MaxCacheItemSize`; the client always receives `res` itself, never the
copy.  `res.Copy()` and `obj.Copy()` are modelled total (the spec models no
copy failure). -/
def processGETFinish (cfg : ServerConfig) (obj : FileObject) (res : Response) :
    ProcessGETResult :=
  if res.isCacheable && res.contentLength != -1 &&
     res.contentLength < cfg.maxCacheItemSize then
    { client := res, cacheTask := some (obj.copy, res.copy) }
  else
    { client := res, cacheTask := none }

/-! ## Basic lemmas about the embedding -/

/-- Setting a header then reading it back yields the new value. -/
theorem Response.get_set (r : Response) (h v : String) : (r.set h v).get h = v := by
  simp [Response.set, Response.get]

/-- `Close` only marks the stream released. -/
theorem Response.close_statusCode (r : Response) : r.close.statusCode = r.statusCode := rfl

/-- The bucket-defaults overlay never touches the status code. -/
theorem overlayBucketHeaders_statusCode (hs : List (String × String)) (r : Response) :
    (overlayBucketHeaders hs r).statusCode = r.statusCode := by
  induction hs generalizing r with
  | nil => rfl
  | cons hv hs ih =>
      unfold overlayBucketHeaders at *
      simp only [List.foldl_cons]
      rw [ih]
      by_cases hc : ((r.get hv.1 == "") = true)
      · simp [hc, Response.set]
      · simp [hc]

/-- Every branch of `replyWithError` carries the requested status code. -/
theorem replyWithError_statusCode (cfg : ServerConfig) (env : Env) (obj : FileObject)
    (sc : Int) (err : String) : (replyWithError cfg env obj sc err).statusCode = sc := by
  unfold replyWithError
  by_cases h : ((!obj.hasTransform || obj.debug || cfg.placeholderStr == "") = true)
  · simp [h, NewError]
  · simp only [h, if_false, Bool.false_eq_true]
    cases henv : env.cacheGet (NewFileErrorObject env cfg.placeholderStr obj) with
    | some c => simp
    | none => simp [NewBuf, Response.setContentType, Response.set]

/-- `atoi` always runs `atoiCore` on the sign-stripped digit list. -/
theorem atoi_eq_core (s : String) : ∃ sign ds, atoi s = atoiCore sign ds := by
  unfold atoi
  split <;> exact ⟨_, _, rfl⟩

/-- A syntax error from the core parser comes with value 0. -/
theorem atoiCore_syntaxErr_val (sign : Int) (ds : List Char)
    (h : (atoiCore sign ds).2 = AtoiErr.syntaxErr) : (atoiCore sign ds).1 = 0 := by
  unfold atoiCore at h ⊢
  split_ifs at h ⊢
  all_goals simp_all

/-- `strconv.Atoi` reports a syntax error only together with value 0. -/
theorem atoi_syntaxErr_val (s : String) (h : (atoi s).2 = AtoiErr.syntaxErr) :
    (atoi s).1 = 0 := by
  obtain ⟨sign, ds, he⟩ := atoi_eq_core s
  rw [he] at h ⊢
  exact atoiCore_syntaxErr_val sign ds h

/-! ## Concrete fixtures used by witness evaluations -/

/-- An all-defaults server configuration. -/
def cfgX : ServerConfig := {}

/-- A 200 image response fixture. -/
def res200 : Response := { statusCode := 200, isImage := true }

/-- A plain 404 response fixture. -/
def res404 : Response := { statusCode := 404 }

/-- Environment whose parent HEAD is a 404 and whose cache always misses. -/
def envX : Env :=
  { storageGet := fun _ => res200
    storageHead := fun _ => res404
    cacheGet := fun _ => none
    engineProcess := fun _ _ _ => .ok res200
    throttlerTake := true
    transformsMerge := fun l => l
    fileErrorObject := fun _ o => o }

/-- A root source object. -/
def pX : FileObject := .mk "b" "parent.jpg" false 0 false false false none

/-- A derivative with `CheckParent` set over `pX`. -/
def objP : FileObject := .mk "b" "parent.jpg-small" true 1 true false false (some pX)

/-- A derivative without `CheckParent` over `pX`. -/
def objNP : FileObject := .mk "b" "parent.jpg-small" true 1 false false false (some pX)

/-! ## Claim C2 -/

/-- C2 counterexample: a processor built from a configuration with
`RequestTimeout = 10` and `LockTimeout = 5` arms the collapse waiter's
timer with 5 s, not `processTimeout − 1 s = 9 s`. -/
theorem lockTimer_not_processTimeout_minus_one :
    ¬ (collapseLockTimerDuration
         (NewRequestProcessor { requestTimeout := 10, lockTimeout := 5 }) =
       (NewRequestProcessor
         { requestTimeout := 10, lockTimeout := 5 }).processTimeout - second) := by
  decide

/-- C2 (amended): for every processor built by `NewRequestProcessor`, the
collapse waiter's lockTimer duration is the independently configured
`serverConfig.LockTimeout` in seconds; it equals `processTimeout − 1 s`
exactly when the configuration satisfies
`RequestTimeout = LockTimeout + 1`. -/
theorem lockTimer_from_config (cfg : ServerConfig) :
    collapseLockTimerDuration (NewRequestProcessor cfg) = cfg.lockTimeout * second ∧
    (collapseLockTimerDuration (NewRequestProcessor cfg) =
        (NewRequestProcessor cfg).processTimeout - second ↔
      cfg.requestTimeout = cfg.lockTimeout + 1) := by
  unfold collapseLockTimerDuration NewRequestProcessor second
  dsimp only
  refine ⟨rfl, ?_, ?_⟩ <;> intro h <;> omega

/-- Witness for the amended C2 at `RequestTimeout = 7`, `LockTimeout = 6`. -/
theorem lockTimer_from_config_witness :
    collapseLockTimerDuration
        (NewRequestProcessor { requestTimeout := 7, lockTimeout := 6 }) =
      (6 : Int) * second ∧
    collapseLockTimerDuration
        (NewRequestProcessor { requestTimeout := 7, lockTimeout := 6 }) =
      (NewRequestProcessor
        { requestTimeout := 7, lockTimeout := 6 }).processTimeout - second :=
  ⟨(lockTimer_from_config { requestTimeout := 7, lockTimeout := 6 }).1,
   (lockTimer_from_config { requestTimeout := 7, lockTimeout := 6 }).2.mpr (by decide)⟩

/-! ## Claims C5 and C6 -/

/-- C5: a collapse waiter whose lockTimer fires signals Cancel, retries the
response cache once, returns the cached response on a hit and otherwise a
504 error response. -/
theorem waiter_timer_cancel_cache_or_504 (cfg : ServerConfig) (env : Env)
    (obj : FileObject) (tr : List GEvent) :
    (collapseGETWaiter cfg env obj tr WEvent.timerFire).cancelSignalled = true ∧
    (∀ c, env.cacheGet obj = some c →
      (collapseGETWaiter cfg env obj tr WEvent.timerFire).result = some c) ∧
    (env.cacheGet obj = none →
      ∃ r0, (collapseGETWaiter cfg env obj tr WEvent.timerFire).result = some r0 ∧
        r0.statusCode = 504) := by
  refine ⟨rfl, ?_, ?_⟩
  · intro c hc
    simp [collapseGETWaiter, hc]
  · intro hc
    refine ⟨replyWithError cfg env obj 504 errTimeout, ?_,
      replyWithError_statusCode cfg env obj 504 errTimeout⟩
    simp [collapseGETWaiter, hc]

/-- Witness for C5: timer expiry with a cache miss yields cancel and a 504. -/
theorem waiter_timer_cancel_cache_or_504_witness :
    (collapseGETWaiter cfgX envX objP [] WEvent.timerFire).cancelSignalled = true ∧
    ∃ r0, (collapseGETWaiter cfgX envX objP [] WEvent.timerFire).result = some r0 ∧
      r0.statusCode = 504 :=
  ⟨(waiter_timer_cancel_cache_or_504 cfgX envX objP []).1,
   (waiter_timer_cancel_cache_or_504 cfgX envX objP []).2.2 rfl⟩

/-- C6: a collapse waiter that observes `ResponseChan` closed without a
value runs the direct GET path (`handleGET`) locally and returns its
result, signalling no cancel and substituting no error response. -/
theorem waiter_chanClosed_falls_back_to_direct (cfg : ServerConfig) (env : Env)
    (obj : FileObject) (fallbackTrace : List GEvent) :
    (collapseGETWaiter cfg env obj fallbackTrace WEvent.chanClosed).result =
      handleGET cfg env obj fallbackTrace ∧
    (collapseGETWaiter cfg env obj fallbackTrace WEvent.chanClosed).cancelSignalled =
      false :=
  ⟨rfl, rfl⟩

/-! ## Claim C7 -/

/-- C7 counterexample: with the `S3AuthCtxKey` marker present but a
per-status header policy matching the response's status 200, the early
return of the policy loop skips the marker branch and `Cache-Control` is
not `no-cache`. -/
theorem s3auth_skipped_by_status_policy :
    (FileObject.mk "b" "k" false 0 false false true none).ctxS3Auth = true ∧
    (updateHeaders { headers := [⟨[200], [("X-Test", "1")], false⟩], buckets := [] }
        (FileObject.mk "b" "k" false 0 false false true none)
        { statusCode := 200 }).get "Cache-Control" ≠ "no-cache" := by
  constructor
  · rfl
  · decide

/-- C7 (amended): header decoration forces `Cache-Control: no-cache` for a
request carrying the `S3AuthCtxKey` marker provided no per-status header
policy matches the response's status code (a matching policy returns
early without reaching the marker branch). -/
theorem s3auth_no_cache_without_status_policy (cfg : MortConfig) (obj : FileObject)
    (res : Response) (hauth : obj.ctxS3Auth = true)
    (hnone : cfg.headers.find?
      (fun hp => hp.statusCodes.contains res.statusCode) = none) :
    (updateHeaders cfg obj res).get "Cache-Control" = "no-cache" := by
  unfold updateHeaders
  cases hb : cfg.buckets.find? (fun b => b.1 == obj.bucket) with
  | none =>
      simp only [hb, hnone, hauth]
      exact Response.get_set res "Cache-Control" "no-cache"
  | some b =>
      have hsc : (overlayBucketHeaders b.2 res).statusCode = res.statusCode :=
        overlayBucketHeaders_statusCode b.2 res
      simp only [hb, hsc, hnone, hauth]
      exact Response.get_set (overlayBucketHeaders b.2 res) "Cache-Control" "no-cache"

/-- Witness for the amended C7: the empty policy table with the marker set. -/
theorem s3auth_no_cache_without_status_policy_witness :
    (updateHeaders { headers := [], buckets := [] }
        (FileObject.mk "b" "k" false 0 false false true none)
        { statusCode := 200 }).get "Cache-Control" = "no-cache" :=
  s3auth_no_cache_without_status_policy { headers := [], buckets := [] }
    (FileObject.mk "b" "k" false 0 false false true none)
    { statusCode := 200 } rfl rfl

/-! ## Claim C8 -/

/-- The body the spec's sentence quotes for the location response, stated
from the spec's words for comparison with the source constant
`s3LocationStr`. -/
def specClaimedLocationBody : String :=
  "<LocationConstraint xmlns=\"http://s3.amazonaws.com/doc/2006-03-01/\">EU</LocationConstraint>"

/-- C8 counterexample: on an empty-key GET whose query contains `location`,
the handler returns the fixed response, but its body is not exactly the
claimed `<LocationConstraint …>EU</LocationConstraint>` string: it starts
with the XML declaration of `s3LocationStr`. -/
theorem location_body_not_exactly_claimed :
    handleS3Get [("location", "")] =
      S3Action.fixedLocation (NewString 200 s3LocationStr) ∧
    (NewString 200 s3LocationStr).body ≠ specClaimedLocationBody := by
  constructor
  · rfl
  · decide

/-- C8 (amended): for every query containing a `location` parameter, the
handler returns — without consulting storage — the locally built status-200
response whose body is the XML declaration `<?xml version="1.0"
encoding="UTF-8"?>` followed by the claimed LocationConstraint XML. -/
theorem location_returns_fixed_xml (query : List (String × String))
    (h : queryHas query "location" = true) :
    handleS3Get query = S3Action.fixedLocation (NewString 200 s3LocationStr) ∧
    (NewString 200 s3LocationStr).statusCode = 200 ∧
    s3LocationStr =
      "<?xml version=\"1.0\" encoding=\"UTF-8\"?>" ++ specClaimedLocationBody := by
  refine ⟨?_, rfl, by decide⟩
  unfold handleS3Get
  simp [h]

/-- Witness for the amended C8 at the query string `?location`. -/
theorem location_returns_fixed_xml_witness :
    handleS3Get [("location", "")] =
      S3Action.fixedLocation (NewString 200 s3LocationStr) ∧
    (NewString 200 s3LocationStr).statusCode = 200 ∧
    s3LocationStr =
      "<?xml version=\"1.0\" encoding=\"UTF-8\"?>" ++ specClaimedLocationBody :=
  location_returns_fixed_xml [("location", "")] rfl

/-! ## Claim C10 -/

/-- C10: for a bucket-listing GET (no `location` query), an absent
`max-keys` parameter lists with `maxKeys = 1000`, while a present but
syntactically invalid `max-keys` has its `Atoi` error dropped and lists
with `maxKeys = 0`, not the default. -/
theorem listing_maxKeys_default_and_invalid (query : List (String × String))
    (hloc : queryHas query "location" = false) :
    (queryFirst query "max-keys" = none →
      (handleS3Get query).listMaxKeys = some 1000) ∧
    (∀ v, queryFirst query "max-keys" = some v →
      (atoi v).2 = AtoiErr.syntaxErr →
      (handleS3Get query).listMaxKeys = some 0) := by
  constructor
  · intro habs
    unfold handleS3Get
    simp [hloc, habs, S3Action.listMaxKeys]
  · intro v hv hsyn
    unfold handleS3Get
    simp [hloc, hv, atoi_syntaxErr_val v hsyn, S3Action.listMaxKeys]

/-- Witness for C10: an absent `max-keys` and the non-numeric `max-keys=abc`. -/
theorem listing_maxKeys_default_and_invalid_witness :
    (handleS3Get [("marker", "m")]).listMaxKeys = some 1000 ∧
    (handleS3Get [("max-keys", "abc")]).listMaxKeys = some 0 :=
  ⟨(listing_maxKeys_default_and_invalid [("marker", "m")] rfl).1 rfl,
   (listing_maxKeys_default_and_invalid [("max-keys", "abc")] rfl).2
     "abc" rfl (by decide)⟩

/-! ## Claim C4 -/

/-- C4: on the GET pipeline tail, the asynchronous cache population of a
copy is scheduled exactly when the chosen response is cacheable, its
content length is ≥ 0 and below `MaxCacheItemSize` (given the data model's
invariant that −1 is the only negative content length); whether or not it
is scheduled, the client receives the original response `res`, never the
copy, and the scheduled task drains `res.Copy()` for `obj.Copy()`. -/
theorem cache_population_condition (cfg : ServerConfig) (obj : FileObject)
    (res : Response) (hcl : -1 ≤ res.contentLength) :
    (processGETFinish cfg obj res).client = res ∧
    ((processGETFinish cfg obj res).cacheTask ≠ none ↔
      (res.isCacheable = true ∧ 0 ≤ res.contentLength ∧
        res.contentLength < cfg.maxCacheItemSize)) ∧
    (∀ t, (processGETFinish cfg obj res).cacheTask = some t →
      t = (obj.copy, res.copy)) := by
  unfold processGETFinish
  by_cases hc : ((res.isCacheable && res.contentLength != -1 &&
      decide (res.contentLength < cfg.maxCacheItemSize)) = true)
  · rw [if_pos hc]
    simp only [bne_iff_ne, Bool.and_eq_true, decide_eq_true_eq] at hc
    have hne : res.contentLength ≠ -1 := hc.1.2
    refine ⟨rfl, ?_, ?_⟩
    · constructor
      · intro _
        exact ⟨hc.1.1, by omega, hc.2⟩
      · intro _
        simp
    · intro t ht
      exact (Option.some.inj ht).symm
  · rw [if_neg hc]
    refine ⟨rfl, ?_, ?_⟩
    · constructor
      · intro h
        exact absurd rfl h
      · rintro ⟨h1, h2, h3⟩
        exfalso
        apply hc
        simp only [Bool.and_eq_true, bne_iff_ne, decide_eq_true_eq]
        exact ⟨⟨h1, by omega⟩, h3⟩
    · intro t ht
      exact Option.noConfusion ht

/-- Witness for C4: a cacheable 10-byte response under a 100-byte cap. -/
theorem cache_population_condition_witness :
    (processGETFinish { maxCacheItemSize := 100 } pX
        { statusCode := 200, contentLength := 10, isCacheable := true }).client =
      { statusCode := 200, contentLength := 10, isCacheable := true } ∧
    (processGETFinish { maxCacheItemSize := 100 } pX
        { statusCode := 200, contentLength := 10, isCacheable := true }).cacheTask ≠
      none :=
  ⟨(cache_population_condition { maxCacheItemSize := 100 } pX
      { statusCode := 200, contentLength := 10, isCacheable := true } (by decide)).1,
   ((cache_population_condition { maxCacheItemSize := 100 } pX
      { statusCode := 200, contentLength := 10, isCacheable := true } (by decide)).2.1).mpr
     ⟨rfl, by decide, by decide⟩⟩

/-! ## Claim C3 -/

/-- The guard of `replyWithError` (line 108), read as a proposition. -/
theorem replyWithError_guard_false (cfg : ServerConfig) (obj : FileObject) :
    ((!obj.hasTransform || obj.debug || cfg.placeholderStr == "") = false) ↔
      (obj.hasTransform = true ∧ obj.debug = false ∧ cfg.placeholderStr ≠ "") := by
  simp only [Bool.or_eq_false_iff, Bool.not_eq_true', Bool.not_eq_false',
    beq_eq_false_iff_ne, ne_eq]
  tauto

/-- C3: the processor substitutes the placeholder exactly when the object
has transforms, debug is off and a placeholder is configured; both
placeholder cases (cache hit on the derived error object, or the immediate
untransformed placeholder bytes) carry the original error status, and
otherwise the plain error response with that status is returned. -/
theorem error_placeholder_substitution (cfg : ServerConfig) (env : Env)
    (obj : FileObject) (sc : Int) (err : String) :
    (replyWithError cfg env obj sc err).statusCode = sc ∧
    (¬(obj.hasTransform = true ∧ obj.debug = false ∧ cfg.placeholderStr ≠ "") →
      replyWithError cfg env obj sc err = NewError sc err) ∧
    ((obj.hasTransform = true ∧ obj.debug = false ∧ cfg.placeholderStr ≠ "") →
      (∀ c, env.cacheGet (NewFileErrorObject env cfg.placeholderStr obj) = some c →
        replyWithError cfg env obj sc err = { c with statusCode := sc }) ∧
      (env.cacheGet (NewFileErrorObject env cfg.placeholderStr obj) = none →
        (replyWithError cfg env obj sc err).body = cfg.placeholderBuf ∧
        replyWithError cfg env obj sc err ≠ NewError sc err)) := by
  refine ⟨replyWithError_statusCode cfg env obj sc err, ?_, ?_⟩
  · intro hn
    unfold replyWithError
    rw [if_pos ?_]
    by_contra hfalse
    exact hn ((replyWithError_guard_false cfg obj).mp (by
      cases hcond : (!obj.hasTransform || obj.debug || cfg.placeholderStr == "") with
      | true => exact absurd hcond hfalse
      | false => rfl))
  · intro hcond
    have hguard : ((!obj.hasTransform || obj.debug || cfg.placeholderStr == "") = false) :=
      (replyWithError_guard_false cfg obj).mpr hcond
    constructor
    · intro c hcache
      unfold replyWithError
      rw [hguard]
      simp only [Bool.false_eq_true, if_false, hcache]
    · intro hcache
      unfold replyWithError
      rw [hguard]
      simp only [Bool.false_eq_true, if_false, hcache]
      constructor
      · simp [NewBuf, Response.setContentType, Response.set]
      · intro heq
        have hbad := congrArg Response.hasError heq
        simp [NewBuf, Response.setContentType, Response.set, NewError] at hbad

/-- Witness for C3: a transformed, non-debug object with a configured
placeholder and a cache miss yields the placeholder body with the original
status; engaging both the substitution branch and the status preservation. -/
theorem error_placeholder_substitution_witness :
    (replyWithError { placeholderStr := "ph.png", placeholderBuf := "PNG" }
        envX objNP 499 errContextCancel).statusCode = 499 ∧
    (replyWithError { placeholderStr := "ph.png", placeholderBuf := "PNG" }
        envX objNP 499 errContextCancel).body = "PNG" ∧
    replyWithError { placeholderStr := "ph.png", placeholderBuf := "PNG" }
        envX objNP 499 errContextCancel ≠ NewError 499 errContextCancel :=
  ⟨(error_placeholder_substitution { placeholderStr := "ph.png", placeholderBuf := "PNG" }
      envX objNP 499 errContextCancel).1,
   ((error_placeholder_substitution { placeholderStr := "ph.png", placeholderBuf := "PNG" }
      envX objNP 499 errContextCancel).2.2 ⟨rfl, rfl, by decide⟩).2 rfl⟩

/-! ## Claim C9 -/

/-- Environment whose parent HEAD is a non-image 500 and whose cache misses. -/
def envH500 : Env := { envX with storageHead := fun _ => { statusCode := 500 } }

/-- C9: `handleNotFound` closes the original 404 response unconditionally at
entry, so in every branch that hands that original response back — no
parent exists, or the (error-free, non-404) parent HEAD has status ≠ 200
or is not an image — the returned response is already closed. -/
theorem notFound_returns_closed_original (cfg : ServerConfig) (env : Env)
    (obj : FileObject) (parentObj : Option FileObject) (tab : List Nat)
    (parentRes : Option Response) (res : Response) :
    (parentObj = none →
      handleNotFound cfg env obj parentObj tab parentRes res = res.close ∧
      (handleNotFound cfg env obj parentObj tab parentRes res).closed = true) ∧
    (∀ p, parentObj = some p →
      ∀ pr, ((if obj.checkParent == false then env.storageHead p
              else parentRes.getD (NewError 0 "nil parent response")) = pr) →
      pr.hasError = false → (pr.statusCode == 404) = false →
      ((pr.statusCode != 200 || !pr.isImage) = true) →
      handleNotFound cfg env obj parentObj tab parentRes res = res.close ∧
      (handleNotFound cfg env obj parentObj tab parentRes res).closed = true) := by
  constructor
  · intro hnone
    subst hnone
    exact ⟨rfl, rfl⟩
  · intro p hp pr hpr herr h404 hni
    subst hp
    have key : handleNotFound cfg env obj (some p) tab parentRes res = res.close := by
      unfold handleNotFound
      dsimp only
      rw [hpr, herr]
      simp only [Bool.false_eq_true, if_false, h404, Response.close]
      rw [if_pos hni]
    refine ⟨key, ?_⟩
    rw [key]
    rfl

/-- Witness for C9: the no-parent branch and the non-image-parent branch
both return the already-closed original 404. -/
theorem notFound_returns_closed_original_witness :
    handleNotFound cfgX envX objNP none [] none res404 = res404.close ∧
    handleNotFound cfgX envH500 objNP (some pX) [] none res404 = res404.close ∧
    (handleNotFound cfgX envH500 objNP (some pX) [] none res404).closed = true :=
  ⟨((notFound_returns_closed_original cfgX envX objNP none [] none res404).1 rfl).1,
   ((notFound_returns_closed_original cfgX envH500 objNP (some pX) [] none res404).2
      pX rfl { statusCode := 500 } rfl rfl (by decide) (by decide)).1,
   ((notFound_returns_closed_original cfgX envH500 objNP (some pX) [] none res404).2
      pX rfl { statusCode := 500 } rfl rfl (by decide) (by decide)).2⟩

/-! ## Claim C1 -/

/-- While `CheckParent` holds, a root parent exists and no parent HEAD has
been recorded, every consumed object result is requeued (lines 299–304)
and the loop state is unchanged, whatever the result's status. -/
theorem handleGETLoop_skips_objArrive (cfg : ServerConfig) (env : Env)
    (obj : FileObject) (parentObj : Option FileObject) (tab : List Nat)
    (hcp : obj.checkParent = true) (hp : parentObj.isSome = true)
    (pre : List GEvent) (hpre : ∀ e ∈ pre, ∃ r0, e = GEvent.objArrive r0)
    (rest : List GEvent) :
    handleGETLoop cfg env obj parentObj tab ⟨none⟩ (pre ++ rest) =
      handleGETLoop cfg env obj parentObj tab ⟨none⟩ rest := by
  induction pre with
  | nil => rfl
  | cons e es ih =>
      obtain ⟨r0, he⟩ := hpre e (List.mem_cons_self e es)
      subst he
      have hstep : handleGETStep cfg env obj parentObj tab ⟨none⟩
          (GEvent.objArrive r0) = Sum.inr ⟨none⟩ := by
        unfold handleGETStep
        simp [hcp, hp]
      simp only [List.cons_append, handleGETLoop, hstep]
      exact ih (fun e2 he2 => hpre e2 (List.mem_cons_of_mem (GEvent.objArrive r0) he2))

/-- C1: whenever the parent HEAD is issued and returns 404 — delivered into
`handleGET`'s select loop (`CheckParent` true with a root parent), or
fetched by the not-found recovery itself (`CheckParent` false) — the GET
returns the parent's 404, regardless of the status the derivative's own
storage fetch returned (the `pre` events carry arbitrary object results;
the recovery case holds for every original response `res`). -/
theorem parentHead404_short_circuit (cfg : ServerConfig) (env : Env)
    (obj : FileObject) :
    (∀ p h pre post,
      obj.checkParent = true → rootParent obj = some p → h.statusCode = 404 →
      (∀ e ∈ pre, ∃ r0, e = GEvent.objArrive r0) →
      handleGET cfg env obj (pre ++ GEvent.parentArrive h :: post) = some h) ∧
    (∀ p (tab : List Nat) (parentRes : Option Response) (res : Response),
      obj.checkParent = false → (env.storageHead p).statusCode = 404 →
      (handleNotFound cfg env obj (some p) tab parentRes res).statusCode = 404) := by
  constructor
  · intro p h pre post hcp hroot h404 hpre
    unfold handleGET
    rw [hroot]
    rw [handleGETLoop_skips_objArrive cfg env obj (some p) (collectTransforms obj)
      hcp rfl pre hpre (GEvent.parentArrive h :: post)]
    have hstep : handleGETStep cfg env obj (some p) (collectTransforms obj) ⟨none⟩
        (GEvent.parentArrive h) = Sum.inl h := by
      unfold handleGETStep
      simp [h404]
    simp only [handleGETLoop, hstep]
  · intro p tab parentRes res hcp hhead
    unfold handleNotFound
    dsimp only
    have hcpb : (obj.checkParent == false) = true := by simp [hcp]
    rw [if_pos hcpb]
    by_cases herr : ((env.storageHead p).hasError = true)
    · rw [herr]
      simp only [if_true]
      rw [replyWithError_statusCode]
      exact hhead
    · simp only [Bool.not_eq_true] at herr
      rw [herr]
      simp only [Bool.false_eq_true, if_false, hhead]
      simp [hhead]

/-- Witness for C1: the parent HEAD 404 arriving after an object-result 200
yields the parent's 404 on the concurrent path; and the recovery path with a
404 HEAD yields status 404 for a 200 original response. -/
theorem parentHead404_short_circuit_witness :
    handleGET cfgX envX objP [GEvent.objArrive res200, GEvent.parentArrive res404] =
      some res404 ∧
    (handleNotFound cfgX envX objNP (some pX) [] none res200).statusCode = 404 :=
  ⟨(parentHead404_short_circuit cfgX envX objP).1 pX res404 [GEvent.objArrive res200]
      [] rfl rfl rfl (fun _ he => ⟨res200, List.mem_singleton.mp he⟩),
   (parentHead404_short_circuit cfgX envX objNP).2 pX [] none res200 rfl rfl⟩
